import Mathlib

/-!
Shallow embedding of `pyergast/pyergast.py`, a client for the Ergast F1 web
API built on `requests` and `pandas`.

Modelling conventions:
* JSON values are the inductive `JVal`; Python dicts are insertion-ordered
  association lists `List (String × JVal)` (CPython 3.7+ key order).
* Python exceptions are the inductive `PyErr`; fallible code runs in
  `Except PyErr`.  `assert cond, msg` is `PyErr.assertFail msg`, a failed
  dict subscript is `PyErr.keyError`, indexing past the end of a list is
  `PyErr.indexError`, subscripting a non-dict (or a pandas NaN cell) is
  `PyErr.typeError`.
* A `pandas.DataFrame` built from a list of dicts is `Table`: the column
  list is the union of the record keys in first-seen order, and a record
  lacking a column yields a `none` cell (pandas NaN).
* Each source function `f(year, race)` is split into `f_url` (argument
  validation and URL construction — everything before `requests.get`) and
  `f_from_response` (everything after), composed in `f` over an explicit
  transport `String → Nat × JVal` standing for `requests.get`.
-/

/-- Python exceptions observable from the library. -/
inductive PyErr where
  | assertFail (msg : String)
  | keyError (key : String)
  | indexError
  | typeError
deriving DecidableEq, Repr

/-- Parsed JSON values (`response.json()`). -/
inductive JVal where
  | null
  | str (s : String)
  | num (n : Int)
  | obj (fields : List (String × JVal))
  | arr (elems : List JVal)
deriving Repr

/-- Key lookup in an insertion-ordered dict, first match. -/
def alookup (k : String) : List (String × JVal) → Option JVal
  | [] => none
  | (k', v) :: rest => if k' = k then some v else alookup k rest

/-- `rec[k] = v` on a Python dict: update in place at the key's position
if it exists (dict keys are unique), append at the end otherwise. -/
def setKey : List (String × JVal) → String → JVal → List (String × JVal)
  | [], k, v => [(k, v)]
  | (k1, v1) :: rest, k, v =>
    if k1 = k then (k, v) :: rest else (k1, v1) :: setKey rest k v

/-- `del rec[k]`: removes the key's binding, `KeyError` when absent. -/
def delKey : List (String × JVal) → String → Except PyErr (List (String × JVal))
  | [], k => .error (.keyError k)
  | (k1, v1) :: rest, k =>
    if k1 = k then .ok rest else
      match delKey rest k with
      | .ok r => .ok ((k1, v1) :: r)
      | .error e => .error e

/-- `rec[k]` on a Python dict value. -/
def lookupE (rec : List (String × JVal)) (k : String) : Except PyErr JVal :=
  match alookup k rec with
  | some v => .ok v
  | none => .error (.keyError k)

/-- `j[k]` subscripting a JSON value: `KeyError` for a missing key,
`TypeError` when the value is not an object. -/
def jget (j : JVal) (k : String) : Except PyErr JVal :=
  match j with
  | .obj fs => lookupE fs k
  | _ => .error .typeError

/-- `j[i]` indexing a JSON array. -/
def jidx (j : JVal) (i : Nat) : Except PyErr JVal :=
  match j with
  | .arr es =>
    match es.get? i with
    | some v => .ok v
    | none => .error .indexError
  | _ => .error .typeError

/-- Expect a JSON string (Python would raise `TypeError` on `+` otherwise). -/
def jstr (j : JVal) : Except PyErr String :=
  match j with
  | .str s => .ok s
  | _ => .error .typeError

/-- `j[k]` expected to be a string. -/
def jgetStr (j : JVal) (k : String) : Except PyErr String := do
  let v ← jget j k
  jstr v

/-- Expect a JSON array, as a Lean list. -/
def jarr (j : JVal) : Except PyErr (List JVal) :=
  match j with
  | .arr es => .ok es
  | _ => .error .typeError

/-- Expect a JSON object, as its field list. -/
def jobjFields (j : JVal) : Except PyErr (List (String × JVal)) :=
  match j with
  | .obj fs => .ok fs
  | _ => .error .typeError

/-- Effectful map over a list (a Python `for` loop building results),
stopping at the first exception. -/
def mapME (f : α → Except PyErr β) : List α → Except PyErr (List β)
  | [] => .ok []
  | x :: xs => do
    let y ← f x
    let ys ← mapME f xs
    .ok (y :: ys)

/-- Membership test on a column list. -/
def hasCol (cs : List String) (c : String) : Bool :=
  match cs with
  | [] => false
  | k :: rest => k = c || hasCol rest c

/-- Append the keys of one record that were not seen yet. -/
def addUnseen (acc : List String) (ks : List String) : List String :=
  ks.foldl (fun a k => if hasCol a k then a else a ++ [k]) acc

/-- Column list of `pd.DataFrame(list-of-dicts)`: union of the record
keys in first-seen order. -/
def dfCols (recs : List (List (String × JVal))) : List String :=
  recs.foldl (fun a r => addUnseen a (r.map Prod.fst)) []

/-- A pandas DataFrame: named columns and row-major cells; a `none` cell
is pandas NaN. -/
structure Table where
  cols : List String
  cells : List (List (Option JVal))
deriving Repr

/-- `pd.DataFrame(recs)` for a list of dicts. -/
def mkDF (recs : List (List (String × JVal))) : Table :=
  { cols := dfCols recs,
    cells := recs.map (fun r => (dfCols recs).map (fun c => alookup c r)) }

/-- The cell of one row under a given column name, rows being aligned
with the column list. -/
def rowLookup : List String → List (Option JVal) → String → Option JVal
  | [], _, _ => none
  | _ :: _, [], _ => none
  | k :: ks, v :: vs, c => if k = c then v else rowLookup ks vs c

/-- `df[cs]` column selection: `KeyError` when any requested column is
absent, otherwise select and reorder. -/
def Table.select (t : Table) (cs : List String) : Except PyErr Table :=
  if cs.all (fun c => hasCol t.cols c) then
    .ok { cols := cs,
          cells := t.cells.map (fun row => cs.map (rowLookup t.cols row)) }
  else
    .error (.keyError "column not found")

/-- `df[c]` single-column extraction. -/
def Table.getCol (t : Table) (c : String) : Except PyErr (List (Option JVal)) :=
  if hasCol t.cols c then
    .ok (t.cells.map (fun row => rowLookup t.cols row c))
  else
    .error (.keyError c)

/-- `df[c] = values` column assignment: replace in place when the column
exists, append at the right end otherwise. -/
def Table.setCol (t : Table) (c : String) (vs : List (Option JVal)) : Table :=
  if hasCol t.cols c then
    { cols := t.cols,
      cells := (t.cells.zip vs).map
        (fun p => (t.cols.zip p.1).map (fun q => if q.1 = c then p.2 else q.2)) }
  else
    { cols := t.cols ++ [c],
      cells := (t.cells.zip vs).map (fun p => p.1 ++ [p.2]) }

/-- `df.drop(c, axis=1)`. -/
def Table.dropCol (t : Table) (c : String) : Except PyErr Table :=
  if hasCol t.cols c then
    .ok { cols := t.cols.filter (fun k => ¬ k = c),
          cells := t.cells.map
            (fun row => ((t.cols.zip row).filter (fun q => ¬ q.1 = c)).map Prod.snd) }
  else
    .error (.keyError c)

/-- Python truthiness of an optional int parameter (`None` and `0` are
falsy). -/
def truthy : Option Nat → Bool
  | none => false
  | some n => n != 0

/-- `str.format` rendering of an optional int argument. -/
def os : Option Nat → String
  | none => "None"
  | some n => toString n

/-- `assert r.status_code == 200, msg`. -/
def statusCheck (msg : String) (status : Nat) : Except PyErr Unit :=
  if status = 200 then .ok () else .error (.assertFail msg)

/-! ## URL construction (everything before `requests.get`) -/

/-- `get_drivers`, branch selection and URL. -/
def get_drivers_url (year race : Option Nat) : Except PyErr String :=
  let ys := os year
  let rs := os race
  if truthy year && truthy race then
    .ok s!"http://ergast.com/api/f1/{ys}/{rs}/drivers.json?limit=1000"
  else if truthy year then
    .ok s!"http://ergast.com/api/f1/{ys}/drivers.json?limit=1000"
  else
    .ok "http://ergast.com/api/f1/drivers.json?limit=1000"

/-- `get_constructors`, branch selection and URL. -/
def get_constructors_url (year race : Option Nat) : Except PyErr String :=
  let ys := os year
  let rs := os race
  if truthy year && truthy race then
    .ok s!"http://ergast.com/api/f1/{ys}/{rs}/constructors.json?limit=1000"
  else if truthy year then
    .ok s!"http://ergast.com/api/f1/{ys}/constructors.json?limit=1000"
  else
    .ok "http://ergast.com/api/f1/constructors.json?limit=1000"

/-- `get_circuits`, branch selection and URL. -/
def get_circuits_url (year race : Option Nat) : Except PyErr String :=
  let ys := os year
  let rs := os race
  if truthy year && truthy race then
    .ok s!"http://ergast.com/api/f1/{ys}/{rs}/circuits.json?limit=1000"
  else if truthy year then
    .ok s!"http://ergast.com/api/f1/{ys}/circuits.json?limit=1000"
  else
    .ok "http://ergast.com/api/f1/circuits.json?limit=1000"

/-- `get_race_result`, branch selection: `if year or race: assert year and
race, 'You must specify both a year and a race'`. -/
def get_race_result_url (year race : Option Nat) : Except PyErr String :=
  let ys := os year
  let rs := os race
  if truthy year || truthy race then
    if truthy year && truthy race then
      .ok s!"http://ergast.com/api/f1/{ys}/{rs}/results.json?limit=1000"
    else
      .error (.assertFail "You must specify both a year and a race")
  else
    .ok "http://ergast.com/api/f1/current/last/results.json?limit=1000"

/-- `get_qualifying_result`, branch selection: the 1996 floor is checked
only in the `year and race` branch. -/
def get_qualifying_result_url (year race : Option Nat) : Except PyErr String :=
  let ys := os year
  let rs := os race
  if truthy year && truthy race then
    if 1996 ≤ (year.getD 0) then
      .ok s!"http://ergast.com/api/f1/{ys}/{rs}/qualifying.json?limit=1000"
    else
      .error (.assertFail "Qualifying data only available starting from 1996")
  else
    .ok "http://ergast.com/api/f1/current/last/qualifying.json?limit=1000"

/-- `driver_standings`, branch selection and URL (no floor check). -/
def driver_standings_url (year race : Option Nat) : Except PyErr String :=
  let ys := os year
  let rs := os race
  if truthy year && truthy race then
    .ok s!"http://ergast.com/api/f1/{ys}/{rs}/driverStandings.json?limit=1000"
  else if truthy year then
    .ok s!"http://ergast.com/api/f1/{ys}/driverStandings.json?limit=1000"
  else
    .ok "http://ergast.com/api/f1/current/driverStandings.json?limit=1000"

/-- `constructor_standings`, branch selection: the 1958 floor is checked
in both year-bearing branches. -/
def constructor_standings_url (year race : Option Nat) : Except PyErr String :=
  let ys := os year
  let rs := os race
  if truthy year && truthy race then
    if 1958 ≤ (year.getD 0) then
      .ok s!"http://ergast.com/api/f1/{ys}/{rs}/constructorStandings.json?limit=1000"
    else
      .error (.assertFail "Constructor standings only available starting 1958")
  else if truthy year then
    if 1958 ≤ (year.getD 0) then
      .ok s!"http://ergast.com/api/f1/{ys}/constructorStandings.json?limit=1000"
    else
      .error (.assertFail "Constructor standings only available starting 1958")
  else
    .ok "http://ergast.com/api/f1/current/constructorStandings.json?limit=1000"

/-! ## Row flattening -/

/-- The per-record mutation loop body of `get_race_result`: derive
`driver`, `driverID`, `nationality` from the nested `Driver` object and
`constructor`, `constructorID` from the nested `Constructor` object. -/
def flattenRaceRec (rec : List (String × JVal)) :
    Except PyErr (List (String × JVal)) := do
  let dinfo ← lookupE rec "Driver"
  let cinfo ← lookupE rec "Constructor"
  let given ← jgetStr dinfo "givenName"
  let family ← jgetStr dinfo "familyName"
  let did ← jget dinfo "driverId"
  let dnat ← jget dinfo "nationality"
  let cname ← jget cinfo "name"
  let cid ← jget cinfo "constructorId"
  let r := setKey rec "driver" (.str (given ++ " " ++ family))
  let r := setKey r "driverID" did
  let r := setKey r "nationality" dnat
  let r := setKey r "constructor" cname
  let r := setKey r "constructorID" cid
  .ok r

/-- The per-record mutation loop body of `get_qualifying_result`.  The
nested `Constructor` object is read but unused; `constructor` and
`constructorID` are taken from the `Driver` object's `name` and
`constructorId` fields, exactly as in the source. -/
def flattenQualRec (rec : List (String × JVal)) :
    Except PyErr (List (String × JVal)) := do
  let dinfo ← lookupE rec "Driver"
  let _cinfo ← lookupE rec "Constructor"
  let given ← jgetStr dinfo "givenName"
  let family ← jgetStr dinfo "familyName"
  let did ← jget dinfo "driverId"
  let dnat ← jget dinfo "nationality"
  let cname ← jget dinfo "name"
  let cid ← jget dinfo "constructorId"
  let r := setKey rec "driver" (.str (given ++ " " ++ family))
  let r := setKey r "driverID" did
  let r := setKey r "nationality" dnat
  let r := setKey r "constructor" cname
  let r := setKey r "constructorID" cid
  .ok r

/-- The per-record mutation loop body of `driver_standings`. -/
def flattenDriverStandingRec (rec : List (String × JVal)) :
    Except PyErr (List (String × JVal)) := do
  let dinfo ← lookupE rec "Driver"
  let did ← jget dinfo "driverId"
  let given ← jgetStr dinfo "givenName"
  let family ← jgetStr dinfo "familyName"
  let dnat ← jget dinfo "nationality"
  let cntrs ← lookupE rec "Constructors"
  let c0 ← jidx cntrs 0
  let cid ← jget c0 "constructorId"
  let cname ← jget c0 "name"
  let r := setKey rec "driverID" did
  let r := setKey r "driver" (.str (given ++ " " ++ family))
  let r := setKey r "nationality" dnat
  let r := setKey r "constructorID" cid
  let r := setKey r "constructor" cname
  let r ← delKey r "Driver"
  let r ← delKey r "Constructors"
  .ok r

/-- The per-record mutation loop body of `constructor_standings`: note
the display name is stored under the key `name`, not `constructor`. -/
def flattenConstructorStandingRec (rec : List (String × JVal)) :
    Except PyErr (List (String × JVal)) := do
  let cinfo ← lookupE rec "Constructor"
  let cid ← jget cinfo "constructorId"
  let cname ← jget cinfo "name"
  let cnat ← jget cinfo "nationality"
  let r := setKey rec "constructorID" cid
  let r := setKey r "name" cname
  let r := setKey r "nationality" cnat
  let r ← delKey r "Constructor"
  .ok r

/-! ## Response processing (everything after `requests.get`) -/

/-- A pandas NaN cell subscripted as a dict raises `TypeError`. -/
def cellVal (c : Option JVal) : Except PyErr JVal :=
  match c with
  | some v => .ok v
  | none => .error .typeError

/-- `get_drivers` after the request:
`pd.DataFrame(drivers['MRData']['DriverTable']['Drivers'])`. -/
def get_drivers_from_response (status : Nat) (body : JVal) :
    Except PyErr Table := do
  statusCheck "Cannot connect to Ergast API" status
  let mr ← jget body "MRData"
  let dt ← jget mr "DriverTable"
  let ds ← jget dt "Drivers"
  let es ← jarr ds
  let recs ← mapME jobjFields es
  .ok (mkDF recs)

/-- `get_constructors` after the request. -/
def get_constructors_from_response (status : Nat) (body : JVal) :
    Except PyErr Table := do
  statusCheck "Cannot connect to Ergast API. Check your inputs." status
  let mr ← jget body "MRData"
  let ct ← jget mr "ConstructorTable"
  let cs ← jget ct "Constructors"
  let es ← jarr cs
  let recs ← mapME jobjFields es
  .ok (mkDF recs)

/-- The body of the geo-extraction loop of `get_circuits`: one cell of
the `Location` column yields its `lat`, `long`, `locality` and `country`
fields. -/
def circQuad (cell : Option JVal) :
    Except PyErr (JVal × JVal × JVal × JVal) := do
  let track ← cellVal cell
  let la ← jget track "lat"
  let lo ← jget track "long"
  let lc ← jget track "locality"
  let co ← jget track "country"
  .ok (la, lo, lc, co)

/-- `get_circuits` after the request: build the raw table, pull the four
geo fields out of the `Location` column, then drop `Location`. -/
def get_circuits_from_response (status : Nat) (body : JVal) :
    Except PyErr Table := do
  statusCheck "Cannot connect to Ergast API. Check your inputs." status
  let mr ← jget body "MRData"
  let ct ← jget mr "CircuitTable"
  let cs ← jget ct "Circuits"
  let es ← jarr cs
  let recs ← mapME jobjFields es
  let df := mkDF recs
  let geo ← df.getCol "Location"
  let quads ← mapME circQuad geo
  let df := df.setCol "Latitude" (quads.map (fun q => some q.1))
  let df := df.setCol "Longtitude" (quads.map (fun q => some q.2.1))
  let df := df.setCol "Locality" (quads.map (fun q => some q.2.2.1))
  let df := df.setCol "Country" (quads.map (fun q => some q.2.2.2))
  df.dropCol "Location"

/-- Fixed column selection of `get_race_result`. -/
def raceCols : List String :=
  ["number", "position", "positionText", "grid", "points", "driverID", "driver",
   "nationality", "constructorID", "constructor", "laps", "status", "Time"]

/-- `get_race_result` after the request: navigate to
`Races[0].Results`, flatten each record, select the thirteen columns. -/
def get_race_result_from_response (status : Nat) (body : JVal) :
    Except PyErr Table := do
  statusCheck "Cannot connect to Ergast API. Check your inputs." status
  let mr ← jget body "MRData"
  let rt ← jget mr "RaceTable"
  let races ← jget rt "Races"
  let race0 ← jidx races 0
  let res ← jget race0 "Results"
  let es ← jarr res
  let recs ← mapME jobjFields es
  let frecs ← mapME flattenRaceRec recs
  (mkDF frecs).select raceCols

/-- Unconditional part of the qualifying column selection. -/
def qualBaseCols : List String :=
  ["number", "position", "driverID", "driver", "nationality", "constructorID",
   "constructor", "Q1"]

/-- Record key presence, `'k' in rec.keys()`. -/
def hasKeyR (rec : List (String × JVal)) (k : String) : Bool :=
  (alookup k rec).isSome

/-- `get_qualifying_result` after the request: flatten, then append the
`Q2` / `Q3` columns exactly when the first record carries those keys. -/
def get_qualifying_result_from_response (status : Nat) (body : JVal) :
    Except PyErr Table := do
  statusCheck "Cannot connect to Ergast API. Check your inputs." status
  let mr ← jget body "MRData"
  let rt ← jget mr "RaceTable"
  let races ← jget rt "Races"
  let race0 ← jidx races 0
  let res ← jget race0 "QualifyingResults"
  let es ← jarr res
  let recs ← mapME jobjFields es
  let frecs ← mapME flattenQualRec recs
  let r0 ← match frecs.get? 0 with
    | some r => Except.ok r
    | none => Except.error PyErr.indexError
  let cols := qualBaseCols ++ (if hasKeyR r0 "Q2" then ["Q2"] else [])
    ++ (if hasKeyR r0 "Q3" then ["Q3"] else [])
  (mkDF frecs).select cols

/-- `driver_standings` after the request: navigate to
`StandingsLists[0].DriverStandings`, flatten, no column selection. -/
def driver_standings_from_response (status : Nat) (body : JVal) :
    Except PyErr Table := do
  statusCheck "Cannot connect to Ergast API. Check your inputs." status
  let mr ← jget body "MRData"
  let st ← jget mr "StandingsTable"
  let sls ← jget st "StandingsLists"
  let sl0 ← jidx sls 0
  let ds ← jget sl0 "DriverStandings"
  let es ← jarr ds
  let recs ← mapME jobjFields es
  let frecs ← mapME flattenDriverStandingRec recs
  .ok (mkDF frecs)

/-- `constructor_standings` after the request. -/
def constructor_standings_from_response (status : Nat) (body : JVal) :
    Except PyErr Table := do
  statusCheck "Cannot connect to Ergast API. Check your inputs" status
  let mr ← jget body "MRData"
  let st ← jget mr "StandingsTable"
  let sls ← jget st "StandingsLists"
  let sl0 ← jidx sls 0
  let cs ← jget sl0 "ConstructorStandings"
  let es ← jarr cs
  let recs ← mapME jobjFields es
  let frecs ← mapME flattenConstructorStandingRec recs
  .ok (mkDF frecs)

/-! ## Composed functions over an explicit transport -/

/-- `get_drivers(year, race)` against a transport standing for
`requests.get`. -/
def get_drivers (year race : Option Nat) (transport : String → Nat × JVal) :
    Except PyErr Table := do
  let u ← get_drivers_url year race
  get_drivers_from_response (transport u).1 (transport u).2

/-- `get_constructors(year, race)` against a transport. -/
def get_constructors (year race : Option Nat) (transport : String → Nat × JVal) :
    Except PyErr Table := do
  let u ← get_constructors_url year race
  get_constructors_from_response (transport u).1 (transport u).2

/-- `get_circuits(year, race)` against a transport. -/
def get_circuits (year race : Option Nat) (transport : String → Nat × JVal) :
    Except PyErr Table := do
  let u ← get_circuits_url year race
  get_circuits_from_response (transport u).1 (transport u).2

/-- `get_race_result(year, race)` against a transport. -/
def get_race_result (year race : Option Nat) (transport : String → Nat × JVal) :
    Except PyErr Table := do
  let u ← get_race_result_url year race
  get_race_result_from_response (transport u).1 (transport u).2

/-- `get_qualifying_result(year, race)` against a transport. -/
def get_qualifying_result (year race : Option Nat)
    (transport : String → Nat × JVal) : Except PyErr Table := do
  let u ← get_qualifying_result_url year race
  get_qualifying_result_from_response (transport u).1 (transport u).2

/-- `driver_standings(year, race)` against a transport. -/
def driver_standings (year race : Option Nat) (transport : String → Nat × JVal) :
    Except PyErr Table := do
  let u ← driver_standings_url year race
  driver_standings_from_response (transport u).1 (transport u).2

/-- `constructor_standings(year, race)` against a transport. -/
def constructor_standings (year race : Option Nat)
    (transport : String → Nat × JVal) : Except PyErr Table := do
  let u ← constructor_standings_url year race
  constructor_standings_from_response (transport u).1 (transport u).2

/-! ## Search helpers

`Series.str.contains(pat)` defaults to `regex=True`, so the query is a
regular expression searched anywhere in the string, not a literal
substring.  We model the fragment of Python regular expressions exercised
here: a pattern is a sequence of tokens, each either a literal character
or the `.` metacharacter matching any single character (other
metacharacters are outside the modelled fragment). -/

/-- One regular-expression token of the modelled fragment. -/
inductive RTok where
  | lit (c : Char)
  | dot
deriving DecidableEq, Repr

/-- `query.lower()` as a character list (ASCII case folding, which is
what the identifiers and names involved use). -/
def pyLower (s : String) : List Char :=
  s.toList.map Char.toLower

/-- Compile a pattern into tokens: `.` is the any-character
metacharacter, everything else a literal. -/
def parsePat (cs : List Char) : List RTok :=
  cs.map (fun c => if c = '.' then .dot else .lit c)

/-- Whether one token matches one character. -/
def tokMatch : RTok → Char → Bool
  | .lit c, c' => c = c'
  | .dot, _ => true

/-- Whether the token list matches a leading segment of the characters. -/
def rmatch : List RTok → List Char → Bool
  | [], _ => true
  | _ :: _, [] => false
  | t :: ts, c :: cs => tokMatch t c && rmatch ts cs

/-- `re.search`: the pattern matches starting at some position. -/
def rsearch (p : List RTok) : List Char → Bool
  | [] => rmatch p []
  | c :: cs => rmatch p (c :: cs) || rsearch p cs

/-- Leading-segment test for literal strings (spec-side helper). -/
def isPrefixL : List Char → List Char → Bool
  | [], _ => true
  | _ :: _, [] => false
  | a :: as, b :: bs => a = b && isPrefixL as bs

/-- Modelled from the spec: literal substring containment, the matching
semantics the spec ascribes to the search helpers ("contains the
lowercased first name OR the lowercased last name as a substring", no
other matching semantics). -/
def literalContains (p : List Char) : List Char → Bool
  | [] => isPrefixL p []
  | c :: cs => isPrefixL p (c :: cs) || literalContains p cs

/-- A pandas NaN, or any non-string cell, cannot be string-matched and
boolean-masked; model that as `TypeError`. -/
def cellStr (c : Option JVal) : Except PyErr String :=
  match c with
  | some (.str s) => .ok s
  | _ => .error .typeError

/-- `df[df[col].str.contains(...) | ...]`: keep the rows whose cell under
`col` satisfies the mask predicate. -/
def filterRowsByCol (t : Table) (col : String) (pred : String → Bool) :
    Except PyErr Table := do
  let cells ← t.getCol col
  let strs ← mapME cellStr cells
  .ok { cols := t.cols,
        cells := ((t.cells.zip strs).filter (fun p => pred p.2)).map Prod.fst }

/-- `find_driverId(firstname, lastname)`: fetch the all-time driver table,
keep rows whose `driverId` matches the lowercased first name or the
lowercased last name under `str.contains`. -/
def find_driverId (firstname lastname : String)
    (transport : String → Nat × JVal) : Except PyErr Table := do
  let df ← get_drivers none none transport
  filterRowsByCol df "driverId" (fun s =>
    rsearch (parsePat (pyLower firstname)) s.toList
      || rsearch (parsePat (pyLower lastname)) s.toList)

/-- `find_constructorid(name)`: fetch the all-time constructor table, keep
rows whose `constructorId` matches the lowercased name under
`str.contains`. -/
def find_constructorid (name : String) (transport : String → Nat × JVal) :
    Except PyErr Table := do
  let df ← get_constructors none none transport
  filterRowsByCol df "constructorId" (fun s =>
    rsearch (parsePat (pyLower name)) s.toList)

/-! ## General lemmas about the embedding -/

@[simp]
theorem bindE_ok_left {α β : Type} (a : α) (f : α → Except PyErr β) :
    (Except.ok a >>= f) = f a := rfl

@[simp]
theorem bindE_error_left {α β : Type} (e : PyErr) (f : α → Except PyErr β) :
    ((Except.error e : Except PyErr α) >>= f) = Except.error e := rfl

theorem bindE_ok_inv {α β : Type} {a : Except PyErr α} {f : α → Except PyErr β}
    {b : β} (h : (a >>= f) = .ok b) : ∃ x, a = .ok x ∧ f x = .ok b := by
  cases a with
  | ok x => exact ⟨x, rfl, h⟩
  | error e => simp at h

theorem mapME_map {α β γ : Type} (f : β → Except PyErr γ) (g : α → β)
    (l : List α) : mapME f (l.map g) = mapME (fun x => f (g x)) l := by
  induction l with
  | nil => rfl
  | cons x xs ih => simp [mapME, ih]

theorem mapME_ok_of {α β : Type} {f : α → Except PyErr β} {g : α → β}
    {l : List α} (h : ∀ x ∈ l, f x = .ok (g x)) :
    mapME f l = .ok (l.map g) := by
  induction l with
  | nil => rfl
  | cons x xs ih =>
    have hx := h x (by simp)
    have hrest : mapME f xs = .ok (xs.map g) :=
      ih (fun y hy => h y (by simp [hy]))
    simp [mapME, hx, hrest]

theorem hasCol_append (a b : List String) (c : String) :
    hasCol (a ++ b) c = (hasCol a c || hasCol b c) := by
  induction a with
  | nil => simp [hasCol]
  | cons k ks ih => by_cases h : k = c <;> simp [hasCol, h, ih]

theorem hasCol_iff_mem (cs : List String) (c : String) :
    hasCol cs c = true ↔ c ∈ cs := by
  induction cs with
  | nil => simp [hasCol]
  | cons k ks ih =>
    by_cases h : k = c
    · subst h
      simp [hasCol]
    · have h' : ¬ c = k := fun hc => h hc.symm
      simp [hasCol, h, ih, h']

theorem hasCol_addUnseen (a ks : List String) (c : String) :
    hasCol (addUnseen a ks) c = (hasCol a c || hasCol ks c) := by
  induction ks generalizing a with
  | nil => simp [addUnseen, hasCol]
  | cons k kt ih =>
    show hasCol (addUnseen (if hasCol a k then a else a ++ [k]) kt) c = _
    by_cases hk : hasCol a k
    · rw [if_pos hk, ih]
      by_cases hkc : k = c
      · subst hkc
        simp [hasCol, hk]
      · simp [hasCol, hkc]
    · rw [if_neg hk, ih, hasCol_append]
      by_cases hkc : k = c <;> simp [hasCol, hkc]

/-- Auxiliary form of `dfCols` starting from an accumulator. -/
theorem dfCols_foldl_hasCol (recs : List (List (String × JVal)))
    (a : List String) (c : String) :
    hasCol (recs.foldl (fun acc r => addUnseen acc (r.map Prod.fst)) a) c =
      (hasCol a c || recs.any (fun r => hasCol (r.map Prod.fst) c)) := by
  induction recs generalizing a with
  | nil => simp
  | cons r rs ih =>
    simp only [List.foldl_cons, List.any_cons, ih, hasCol_addUnseen]
    rw [Bool.or_assoc]

theorem hasCol_dfCols (recs : List (List (String × JVal))) (c : String) :
    hasCol (dfCols recs) c = recs.any (fun r => hasCol (r.map Prod.fst) c) := by
  simpa [dfCols, hasCol] using dfCols_foldl_hasCol recs [] c

theorem addUnseen_of_sub (a ks : List String)
    (h : ∀ k ∈ ks, hasCol a k = true) : addUnseen a ks = a := by
  induction ks with
  | nil => rfl
  | cons k kt ih =>
    show addUnseen (if hasCol a k then a else a ++ [k]) kt = a
    rw [if_pos (h k (by simp))]
    exact ih (fun x hx => h x (by simp [hx]))

theorem dfCols_foldl_of_sub (recs : List (List (String × JVal)))
    (a : List String)
    (h : ∀ r ∈ recs, ∀ k ∈ r.map Prod.fst, hasCol a k = true) :
    recs.foldl (fun acc r => addUnseen acc (r.map Prod.fst)) a = a := by
  induction recs with
  | nil => rfl
  | cons r rs ih =>
    simp only [List.foldl_cons, addUnseen_of_sub a _ (h r (by simp))]
    exact ih (fun r' hr' => h r' (by simp [hr']))

theorem rowLookup_map (cols : List String) (f : String → Option JVal)
    (c : String) :
    rowLookup cols (cols.map f) c = if hasCol cols c then f c else none := by
  induction cols with
  | nil => simp [rowLookup, hasCol]
  | cons k ks ih =>
    by_cases h : k = c
    · subst h
      simp [rowLookup, hasCol]
    · simp [rowLookup, hasCol, h, ih]

theorem select_mkDF (recs : List (List (String × JVal))) (cs : List String)
    (h : ∀ c ∈ cs, hasCol (dfCols recs) c = true) :
    (mkDF recs).select cs =
      .ok { cols := cs,
            cells := recs.map (fun r => cs.map (fun c => alookup c r)) } := by
  have hall : cs.all (fun c => hasCol (dfCols recs) c) = true := by
    simpa [List.all_eq_true] using h
  simp only [Table.select, mkDF, hall, if_pos, List.map_map]
  refine congrArg Except.ok (congrArg (Table.mk cs) ?_)
  refine List.map_congr_left (fun r _ => ?_)
  refine List.map_congr_left (fun c hc => ?_)
  simp only [Function.comp]
  rw [rowLookup_map, if_pos (h c hc)]

theorem alookup_append (a b : List (String × JVal)) (k : String) :
    alookup k (a ++ b) =
      match alookup k a with
      | some v => some v
      | none => alookup k b := by
  induction a with
  | nil => simp [alookup]
  | cons p rest ih =>
    by_cases h : p.1 = k <;> simp [alookup, h, ih]

theorem alookup_setKey_same (r : List (String × JVal)) (k : String) (v : JVal) :
    alookup k (setKey r k v) = some v := by
  induction r with
  | nil => simp [setKey, alookup]
  | cons p rest ih =>
    obtain ⟨k1, v1⟩ := p
    by_cases h : k1 = k <;> simp [setKey, alookup, h, ih]

theorem alookup_setKey_diff (r : List (String × JVal)) (k k' : String)
    (v : JVal) (h : ¬ k' = k) :
    alookup k' (setKey r k v) = alookup k' r := by
  have h' : ¬ k = k' := fun hh => h hh.symm
  induction r with
  | nil => simp [setKey, alookup, h']
  | cons p rest ih =>
    obtain ⟨k1, v1⟩ := p
    by_cases hp : k1 = k
    · subst hp
      simp [setKey, alookup, h']
    · by_cases hp' : k1 = k' <;> simp [setKey, alookup, hp, hp', h, ih]

theorem lookupE_ok_inv {rec : List (String × JVal)} {k : String} {v : JVal}
    (h : lookupE rec k = .ok v) : alookup k rec = some v := by
  unfold lookupE at h
  cases ha : alookup k rec <;> rw [ha] at h <;> simp_all

theorem jget_ok_inv {j : JVal} {k : String} {v : JVal}
    (h : jget j k = .ok v) : ∃ fs, j = .obj fs ∧ alookup k fs = some v := by
  cases j <;> simp [jget] at h
  case obj fs => exact ⟨fs, rfl, lookupE_ok_inv h⟩

theorem jstr_ok_inv {j : JVal} {s : String} (h : jstr j = .ok s) :
    j = .str s := by
  cases j <;> simp [jstr] at h
  case str s' => rw [h]

theorem jgetStr_ok_inv {j : JVal} {k : String} {s : String}
    (h : jgetStr j k = .ok s) :
    ∃ fs, j = .obj fs ∧ alookup k fs = some (.str s) := by
  unfold jgetStr at h
  obtain ⟨v, hv, hs⟩ := bindE_ok_inv h
  obtain ⟨fs, hj, hl⟩ := jget_ok_inv hv
  exact ⟨fs, hj, by rw [hl, jstr_ok_inv hs]⟩

/-! ## C1: round supplied without season -/

/-- A transport whose response marks that the request was issued. -/
def failingTransport : String → Nat × JVal := fun _ => (503, JVal.null)

/-- C1 counterexample: `get_drivers(race=1)` (round without season) does
not fail with an InvalidArgument error before the request; it builds the
all-time URL, issues the request, and its outcome depends on the
transport (here the 503 response reaches the status assertion). -/
theorem C1_counterexample_get_drivers_round_only_requests :
    get_drivers_url none (some 1) =
      .ok "http://ergast.com/api/f1/drivers.json?limit=1000" ∧
    get_drivers none (some 1) failingTransport =
      .error (.assertFail "Cannot connect to Ergast API") :=
  ⟨rfl, rfl⟩

/-- C1 amended: with round supplied and season omitted, only
`get_race_result` fails (with the `'You must specify both a year and a
race'` assertion) before the transport is invoked; the six other
retrieval functions silently ignore the round and build their all-time or
current URL, so a request is issued. -/
theorem C1_amended_only_race_result_rejects_round_without_season
    (n : Nat) (hn : n ≠ 0) :
    get_race_result_url none (some n) =
      .error (.assertFail "You must specify both a year and a race") ∧
    (∀ transport, get_race_result none (some n) transport =
      .error (.assertFail "You must specify both a year and a race")) ∧
    get_drivers_url none (some n) =
      .ok "http://ergast.com/api/f1/drivers.json?limit=1000" ∧
    get_constructors_url none (some n) =
      .ok "http://ergast.com/api/f1/constructors.json?limit=1000" ∧
    get_circuits_url none (some n) =
      .ok "http://ergast.com/api/f1/circuits.json?limit=1000" ∧
    get_qualifying_result_url none (some n) =
      .ok "http://ergast.com/api/f1/current/last/qualifying.json?limit=1000" ∧
    driver_standings_url none (some n) =
      .ok "http://ergast.com/api/f1/current/driverStandings.json?limit=1000" ∧
    constructor_standings_url none (some n) =
      .ok "http://ergast.com/api/f1/current/constructorStandings.json?limit=1000" := by
  have hurl : get_race_result_url none (some n) =
      .error (.assertFail "You must specify both a year and a race") := by
    simp [get_race_result_url, truthy, hn]
  refine ⟨hurl, fun transport => ?_, ?_, ?_, ?_, ?_, ?_, ?_⟩
  · simp [get_race_result, hurl]
  · simp [get_drivers_url, truthy]
  · simp [get_constructors_url, truthy]
  · simp [get_circuits_url, truthy]
  · simp [get_qualifying_result_url, truthy]
  · simp [driver_standings_url, truthy]
  · simp [constructor_standings_url, truthy]

/-- C1 witness: the amended statement at round 2. -/
theorem C1_witness_round_2 :
    get_race_result_url none (some 2) =
      .error (.assertFail "You must specify both a year and a race") ∧
    get_drivers_url none (some 2) =
      .ok "http://ergast.com/api/f1/drivers.json?limit=1000" :=
  ⟨(C1_amended_only_race_result_rejects_round_without_season 2 (by decide)).1,
   (C1_amended_only_race_result_rejects_round_without_season 2 (by decide)).2.2.1⟩

/-! ## C4: historical floors checked before the request -/

/-- C4: a season below the historical floor fails the assertion during
URL construction, before the transport can be invoked:
`constructor_standings` rejects every season below 1958 (whatever the
round argument), and `get_qualifying_result` with both season and round
rejects every season below 1996. -/
theorem C4_floor_checked_before_request
    (y z r : Nat) (hy : 0 < y) (h58 : y < 1958)
    (hz : 0 < z) (h96 : z < 1996) (hr : 0 < r) :
    (∀ race, constructor_standings_url (some y) race =
      .error (.assertFail "Constructor standings only available starting 1958")) ∧
    (∀ race transport, constructor_standings (some y) race transport =
      .error (.assertFail "Constructor standings only available starting 1958")) ∧
    get_qualifying_result_url (some z) (some r) =
      .error (.assertFail "Qualifying data only available starting from 1996") ∧
    (∀ transport, get_qualifying_result (some z) (some r) transport =
      .error (.assertFail "Qualifying data only available starting from 1996")) := by
  have hy0 : y ≠ 0 := Nat.pos_iff_ne_zero.mp hy
  have hz0 : z ≠ 0 := Nat.pos_iff_ne_zero.mp hz
  have hr0 : r ≠ 0 := Nat.pos_iff_ne_zero.mp hr
  have hcs : ∀ race, constructor_standings_url (some y) race =
      .error (.assertFail "Constructor standings only available starting 1958") := by
    intro race
    cases race with
    | none => simp [constructor_standings_url, truthy, hy0, Nat.not_le.mpr h58]
    | some m =>
      by_cases hm : m = 0 <;>
        simp [constructor_standings_url, truthy, hy0, hm, Nat.not_le.mpr h58]
  have hq : get_qualifying_result_url (some z) (some r) =
      .error (.assertFail "Qualifying data only available starting from 1996") := by
    simp [get_qualifying_result_url, truthy, hz0, hr0, Nat.not_le.mpr h96]
  refine ⟨hcs, fun race transport => ?_, hq, fun transport => ?_⟩
  · simp [constructor_standings, hcs race]
  · simp [get_qualifying_result, hq]

/-- C4 witness: seasons 1957 (constructor standings) and 1995
(qualifying, round 1) are rejected before any request. -/
theorem C4_witness_1957_and_1995 :
    constructor_standings_url (some 1957) (some 1) =
      .error (.assertFail "Constructor standings only available starting 1958") ∧
    get_qualifying_result_url (some 1995) (some 1) =
      .error (.assertFail "Qualifying data only available starting from 1996") :=
  ⟨(C4_floor_checked_before_request 1957 1995 1 (by decide) (by decide)
      (by decide) (by decide) (by decide)).1 (some 1),
   (C4_floor_checked_before_request 1957 1995 1 (by decide) (by decide)
      (by decide) (by decide) (by decide)).2.2.1⟩

/-! ## C9: qualifying with round omitted ignores the season -/

/-- C9: for every season argument, calling `get_qualifying_result` with
the round omitted ignores the season entirely: the URL is the current/last
qualifying endpoint, no 1996 floor check runs (no error even for seasons
below 1996), and the call behaves exactly like the no-argument call. -/
theorem C9_qualifying_round_omitted_ignores_season (year : Option Nat) :
    get_qualifying_result_url year none =
      .ok "http://ergast.com/api/f1/current/last/qualifying.json?limit=1000" ∧
    ∀ transport, get_qualifying_result year none transport =
      get_qualifying_result none none transport := by
  have hurl : get_qualifying_result_url year none =
      .ok "http://ergast.com/api/f1/current/last/qualifying.json?limit=1000" := by
    cases year with
    | none => rfl
    | some n => simp [get_qualifying_result_url, truthy]
  have h0 : get_qualifying_result_url none none =
      .ok "http://ergast.com/api/f1/current/last/qualifying.json?limit=1000" := rfl
  exact ⟨hurl, fun transport => by
    simp [get_qualifying_result, hurl, h0]⟩

/-! ## C8: structural failures are distinguishable from transport failures -/

/-- An otherwise well-formed body whose `Races` array is empty, as for a
season/round with no race. -/
def emptyRacesBody : JVal :=
  .obj [("MRData", .obj [("RaceTable", .obj [("Races", .arr [])])])]

/-- C8: a non-success status makes `get_race_result` fail with the
connection assertion (the transport failure); a parsed body whose
expected array is empty fails with `IndexError`, and one whose expected
key is absent fails with `KeyError` — exception values disjoint from the
transport failure, so a caller can tell the cases apart. -/
theorem C8_structure_error_distinct_from_transport_error :
    (∀ (status : Nat) (body : JVal), status ≠ 200 →
      get_race_result_from_response status body =
        .error (.assertFail "Cannot connect to Ergast API. Check your inputs.")) ∧
    get_race_result_from_response 200 emptyRacesBody = .error .indexError ∧
    get_race_result_from_response 200 (.obj []) = .error (.keyError "MRData") ∧
    (∀ msg k, PyErr.assertFail msg ≠ PyErr.indexError ∧
      PyErr.assertFail msg ≠ PyErr.keyError k) := by
  refine ⟨fun status body h => ?_, rfl, rfl, fun msg k => by simp⟩
  simp [get_race_result_from_response, statusCheck, h]

/-- C8 witness: a 503 response fails with the transport assertion. -/
theorem C8_witness_status_503 :
    get_race_result_from_response 503 JVal.null =
      .error (.assertFail "Cannot connect to Ergast API. Check your inputs.") :=
  C8_structure_error_distinct_from_transport_error.1 503 JVal.null (by decide)

/-! ## C3: qualifying constructor fields sourced from the Driver object -/

/-- C3: whenever the qualifying flattener succeeds on a record, the
`constructor` and `constructorID` fields of the flattened row are the
`name` and `constructorId` fields of the nested `Driver` sub-object (not
of the `Constructor` sub-object), and `driver`, `driverID`,
`nationality` come from the Driver object's
`givenName + ' ' + familyName`, `driverId` and `nationality`. -/
theorem C3_qualifying_fields_come_from_driver_object
    (rec fr : List (String × JVal)) (h : flattenQualRec rec = .ok fr) :
    ∃ d, alookup "Driver" rec = some (JVal.obj d) ∧
      alookup "constructor" fr = alookup "name" d ∧
      alookup "constructorID" fr = alookup "constructorId" d ∧
      alookup "driverID" fr = alookup "driverId" d ∧
      alookup "nationality" fr = alookup "nationality" d ∧
      ∃ g f, alookup "givenName" d = some (.str g) ∧
        alookup "familyName" d = some (.str f) ∧
        alookup "driver" fr = some (.str (g ++ " " ++ f)) := by
  unfold flattenQualRec at h
  obtain ⟨dinfo, hdrv, h⟩ := bindE_ok_inv h
  obtain ⟨cinfo, hcon, h⟩ := bindE_ok_inv h
  obtain ⟨given, hg, h⟩ := bindE_ok_inv h
  obtain ⟨family, hf, h⟩ := bindE_ok_inv h
  obtain ⟨did, hdid, h⟩ := bindE_ok_inv h
  obtain ⟨dnat, hnat, h⟩ := bindE_ok_inv h
  obtain ⟨cname, hcn, h⟩ := bindE_ok_inv h
  obtain ⟨cid, hcid, h⟩ := bindE_ok_inv h
  have hfr : fr = setKey (setKey (setKey (setKey (setKey rec
      "driver" (.str (given ++ " " ++ family))) "driverID" did)
      "nationality" dnat) "constructor" cname) "constructorID" cid := by
    simp only [Except.ok.injEq] at h
    exact h.symm
  subst hfr
  obtain ⟨d, hd, hgl⟩ := jgetStr_ok_inv hg
  subst hd
  obtain ⟨d', hd', hfl⟩ := jgetStr_ok_inv hf
  obtain rfl : d = d' := by injection hd'
  obtain ⟨d', hd', hdl⟩ := jget_ok_inv hdid
  obtain rfl : d = d' := by injection hd'
  obtain ⟨d', hd', hnl⟩ := jget_ok_inv hnat
  obtain rfl : d = d' := by injection hd'
  obtain ⟨d', hd', hcnl⟩ := jget_ok_inv hcn
  obtain rfl : d = d' := by injection hd'
  obtain ⟨d', hd', hcil⟩ := jget_ok_inv hcid
  obtain rfl : d = d' := by injection hd'
  refine ⟨d, lookupE_ok_inv hdrv, ?_, ?_, ?_, ?_, given, family, hgl, hfl, ?_⟩
  · rw [alookup_setKey_diff _ _ _ _ (by decide), alookup_setKey_same, hcnl]
  · rw [alookup_setKey_same, hcil]
  · rw [alookup_setKey_diff _ _ _ _ (by decide),
      alookup_setKey_diff _ _ _ _ (by decide),
      alookup_setKey_diff _ _ _ _ (by decide), alookup_setKey_same, hdl]
  · rw [alookup_setKey_diff _ _ _ _ (by decide),
      alookup_setKey_diff _ _ _ _ (by decide), alookup_setKey_same, hnl]
  · rw [alookup_setKey_diff _ _ _ _ (by decide),
      alookup_setKey_diff _ _ _ _ (by decide),
      alookup_setKey_diff _ _ _ _ (by decide),
      alookup_setKey_diff _ _ _ _ (by decide), alookup_setKey_same]

/-- A concrete qualifying record whose `Constructor` sub-object carries
values different from the Driver sub-object's `name`/`constructorId`, so
the field-source mapping is observable. -/
def qualRecExample : List (String × JVal) :=
  [("number", .str "44"), ("position", .str "1"),
   ("Driver", .obj [("driverId", .str "hamilton"),
     ("givenName", .str "Lewis"), ("familyName", .str "Hamilton"),
     ("nationality", .str "British"), ("name", .str "Mercedes"),
     ("constructorId", .str "mercedes")]),
   ("Constructor", .obj [("constructorId", .str "mclaren"),
     ("name", .str "McLaren")]),
   ("Q1", .str "1:11.111")]

/-- The flattened form of `qualRecExample`. -/
def qualRecExampleFlat : List (String × JVal) :=
  qualRecExample ++
    [("driver", .str "Lewis Hamilton"), ("driverID", .str "hamilton"),
     ("nationality", .str "British"), ("constructor", .str "Mercedes"),
     ("constructorID", .str "mercedes")]

/-- For a family of records sharing one key list, the DataFrame columns
are exactly that key list (with its own duplicates collapsed). -/
theorem dfCols_uniform {α : Type} (f : α → List (String × JVal))
    (ks : List String) (hf : ∀ y, (f y).map Prod.fst = ks)
    (x : α) (xs : List α) :
    dfCols ((x :: xs).map f) = addUnseen [] ks := by
  unfold dfCols
  simp only [List.map_cons, List.foldl_cons, hf]
  apply dfCols_foldl_of_sub
  intro r hr k hk
  obtain ⟨y, _, rfl⟩ := List.mem_map.mp hr
  rw [hf y] at hk
  rw [hasCol_addUnseen]
  simp [hasCol, (hasCol_iff_mem ks k).mpr hk]

/-- C3 witness: the field-source mapping at the concrete record. -/
theorem C3_witness_concrete_record :
    ∃ d, alookup "Driver" qualRecExample = some (JVal.obj d) ∧
      alookup "constructor" qualRecExampleFlat = alookup "name" d ∧
      alookup "constructorID" qualRecExampleFlat = alookup "constructorId" d ∧
      alookup "driverID" qualRecExampleFlat = alookup "driverId" d ∧
      alookup "nationality" qualRecExampleFlat = alookup "nationality" d ∧
      ∃ g f, alookup "givenName" d = some (.str g) ∧
        alookup "familyName" d = some (.str f) ∧
        alookup "driver" qualRecExampleFlat = some (.str (g ++ " " ++ f)) :=
  C3_qualifying_fields_come_from_driver_object qualRecExample
    qualRecExampleFlat (by rfl)

/-! ## C7: circuits geo flattening -/

theorem hasCol_filter_ne (l : List String) (c : String) :
    hasCol (l.filter (fun k => ¬ k = c)) c = false := by
  induction l with
  | nil => rfl
  | cons k ks ih =>
    by_cases h : k = c
    · simpa [List.filter_cons, h] using ih
    · simpa [List.filter_cons, h, hasCol] using ih

theorem dropCol_ok_inv {t : Table} {c : String} {t' : Table}
    (h : t.dropCol c = .ok t') :
    t'.cols = t.cols.filter (fun k => ¬ k = c) := by
  unfold Table.dropCol at h
  by_cases hc : hasCol t.cols c
  · rw [if_pos hc] at h
    simp only [Except.ok.injEq] at h
    rw [← h]
  · rw [if_neg hc] at h
    exact absurd h (by simp)

theorem getCol_mkDF (recs : List (List (String × JVal))) (c : String)
    (h : hasCol (dfCols recs) c = true) :
    (mkDF recs).getCol c = .ok (recs.map (fun r => alookup c r)) := by
  unfold Table.getCol mkDF
  simp only [h, if_pos, List.map_map]
  refine congrArg Except.ok (List.map_congr_left (fun r _ => ?_))
  simp only [Function.comp]
  rw [rowLookup_map, if_pos h]

theorem setCol_map {α : Type} (cols : List String) (c : String)
    (hc : hasCol cols c = false) (l : List α)
    (row : α → List (Option JVal)) (v : α → Option JVal) :
    Table.setCol ⟨cols, l.map row⟩ c (l.map v) =
      ⟨cols ++ [c], l.map (fun z => row z ++ [v z])⟩ := by
  unfold Table.setCol
  simp only [hc, Bool.false_eq_true, if_false]
  refine congrArg (Table.mk (cols ++ [c])) ?_
  rw [List.zip_map', List.map_map]
  rfl

theorem dropCol_map {α : Type} (cols : List String) (c : String)
    (hc : hasCol cols c = true) (l : List α)
    (row : α → List (Option JVal)) :
    Table.dropCol ⟨cols, l.map row⟩ c =
      .ok ⟨cols.filter (fun k => ¬ k = c),
           l.map (fun z =>
             ((cols.zip (row z)).filter (fun q => ¬ q.1 = c)).map Prod.snd)⟩ := by
  unfold Table.dropCol
  simp only [hc, if_pos, List.map_map]
  rfl

/-- One upstream circuit record. -/
structure CircIn where
  circuitId : String
  url : String
  circuitName : String
  lat : String
  long : String
  locality : String
  country : String

/-- The nested `Location` object of a circuit record. -/
def locObj (x : CircIn) : JVal :=
  .obj [("lat", .str x.lat), ("long", .str x.long),
    ("locality", .str x.locality), ("country", .str x.country)]

/-- The raw JSON record of a circuit. -/
def mkCircRec (x : CircIn) : List (String × JVal) :=
  [("circuitId", .str x.circuitId), ("url", .str x.url),
   ("circuitName", .str x.circuitName), ("Location", locObj x)]

/-- A full circuits response body. -/
def mkCircuitsBody (xs : List CircIn) : JVal :=
  .obj [("MRData", .obj [("CircuitTable", .obj [("Circuits",
    .arr (xs.map (fun x => JVal.obj (mkCircRec x))))])])]

/-- Raw columns of the circuits DataFrame before geo extraction. -/
def circRawCols : List String :=
  ["circuitId", "url", "circuitName", "Location"]

/-- Final columns of the circuits table. -/
def circCols : List String :=
  ["circuitId", "url", "circuitName", "Latitude", "Longtitude", "Locality",
   "Country"]

/-- One output row of the circuits table. -/
def circRow (x : CircIn) : List (Option JVal) :=
  [some (.str x.circuitId), some (.str x.url), some (.str x.circuitName),
   some (.str x.lat), some (.str x.long), some (.str x.locality),
   some (.str x.country)]

/-- C7: `get_circuits` never returns a table with a `Location` column
(first conjunct, for every response on which it succeeds), and on every
schema-conformant nonempty response it returns the records flattened so
that row i's four geo cells are exactly row i's nested `Location` fields,
with the `Location` key dropped (second conjunct). -/
theorem C7_circuits_flattened_location
    (status : Nat) (body : JVal) (t : Table) (x : CircIn) (xs : List CircIn) :
    (get_circuits_from_response status body = .ok t →
      hasCol t.cols "Location" = false) ∧
    get_circuits_from_response 200 (mkCircuitsBody (x :: xs)) =
      .ok { cols := circCols, cells := (x :: xs).map circRow } := by
  constructor
  · intro h
    unfold get_circuits_from_response at h
    obtain ⟨u1, _, h⟩ := bindE_ok_inv h
    obtain ⟨mr, _, h⟩ := bindE_ok_inv h
    obtain ⟨ct, _, h⟩ := bindE_ok_inv h
    obtain ⟨cs, _, h⟩ := bindE_ok_inv h
    obtain ⟨es, _, h⟩ := bindE_ok_inv h
    obtain ⟨recs, _, h⟩ := bindE_ok_inv h
    obtain ⟨geo, _, h⟩ := bindE_ok_inv h
    obtain ⟨quads, _, h⟩ := bindE_ok_inv h
    rw [dropCol_ok_inv h]
    exact hasCol_filter_ne _ _
  · have h1 : mapME jobjFields ((x :: xs).map (fun z => JVal.obj (mkCircRec z))) =
        .ok ((x :: xs).map mkCircRec) := by
      rw [mapME_map]
      exact mapME_ok_of (fun z _ => rfl)
    have hcols : dfCols ((x :: xs).map mkCircRec) = circRawCols :=
      dfCols_uniform mkCircRec circRawCols (fun z => rfl) x xs
    have hgeo : (mkDF ((x :: xs).map mkCircRec)).getCol "Location" =
        .ok ((x :: xs).map (fun z => some (locObj z))) := by
      rw [getCol_mkDF _ _ (by rw [hcols]; rfl), List.map_map]
      exact congrArg Except.ok (List.map_congr_left (fun z _ => rfl))
    have h2 : mapME circQuad ((x :: xs).map (fun z => some (locObj z))) =
        .ok ((x :: xs).map (fun z =>
          (JVal.str z.lat, JVal.str z.long, JVal.str z.locality,
            JVal.str z.country))) := by
      rw [mapME_map]
      exact mapME_ok_of (fun z _ => rfl)
    have key : get_circuits_from_response 200 (mkCircuitsBody (x :: xs)) =
        (do
          let recs ← mapME jobjFields
            ((x :: xs).map (fun z => JVal.obj (mkCircRec z)))
          let geo ← (mkDF recs).getCol "Location"
          let quads ← mapME circQuad geo
          (((((mkDF recs).setCol "Latitude"
            (quads.map (fun q => some q.1))).setCol "Longtitude"
            (quads.map (fun q => some q.2.1))).setCol "Locality"
            (quads.map (fun q => some q.2.2.1))).setCol "Country"
            (quads.map (fun q => some q.2.2.2))).dropCol "Location") := rfl
    rw [key, h1, bindE_ok_left, hgeo, bindE_ok_left, h2, bindE_ok_left]
    have hdf : mkDF ((x :: xs).map mkCircRec) =
        ⟨circRawCols, (x :: xs).map
          (fun z => circRawCols.map (fun c => alookup c (mkCircRec z)))⟩ := by
      unfold mkDF
      rw [hcols, List.map_map]
      rfl
    rw [hdf]
    rw [List.map_map, List.map_map, List.map_map, List.map_map]
    rw [setCol_map _ _ (by rfl), setCol_map _ _ (by rfl),
      setCol_map _ _ (by rfl), setCol_map _ _ (by rfl),
      dropCol_map _ _ (by rfl)]
    refine congrArg Except.ok ?_
    refine congrArg (Table.mk circCols) ?_
    exact List.map_congr_left (fun z _ => rfl)

/-- A concrete circuit record for the witness. -/
def circExample : CircIn :=
  ⟨"monza", "http://example/monza", "Autodromo Nazionale di Monza",
   "45.6156", "9.28111", "Monza", "Italy"⟩

/-- C7 witness: the concrete one-circuit response flattens as stated and
its output has no `Location` column. -/
theorem C7_witness_monza :
    get_circuits_from_response 200 (mkCircuitsBody [circExample]) =
      .ok { cols := circCols, cells := [circExample].map circRow } ∧
    hasCol circCols "Location" = false := by
  have h := C7_circuits_flattened_location 200 (mkCircuitsBody [circExample])
    { cols := circCols, cells := [circExample].map circRow } circExample []
  exact ⟨h.2, h.1 h.2⟩

/-! ## C2: conditional Q2/Q3 columns -/

theorem hasCol_dfCols_head (r : List (String × JVal))
    (rs : List (List (String × JVal))) (c : String)
    (h : hasCol (r.map Prod.fst) c = true) :
    hasCol (dfCols (r :: rs)) c = true := by
  rw [hasCol_dfCols]
  simp [h]

/-- One upstream qualifying record: `Q2`/`Q3` may be absent.  The
`dname` and `dconstructorId` fields model the `name`/`constructorId`
keys that `get_qualifying_result` reads off the Driver object. -/
structure QIn where
  number : String
  position : String
  driverId : String
  givenName : String
  familyName : String
  nationality : String
  dname : String
  dconstructorId : String
  q1 : String
  q2 : Option String
  q3 : Option String

/-- The raw JSON record of a qualifying result. -/
def mkQRec (x : QIn) : List (String × JVal) :=
  [("number", .str x.number), ("position", .str x.position),
   ("Driver", .obj [("driverId", .str x.driverId),
     ("givenName", .str x.givenName), ("familyName", .str x.familyName),
     ("nationality", .str x.nationality), ("name", .str x.dname),
     ("constructorId", .str x.dconstructorId)]),
   ("Constructor", .obj [("constructorId", .str x.dconstructorId),
     ("name", .str x.dname)]),
   ("Q1", .str x.q1)]
  ++ (match x.q2 with | some s => [("Q2", JVal.str s)] | none => [])
  ++ (match x.q3 with | some s => [("Q3", JVal.str s)] | none => [])

/-- The same record after the qualifying flattening loop. -/
def qFlatRec (x : QIn) : List (String × JVal) :=
  mkQRec x ++
    [("driver", .str (x.givenName ++ " " ++ x.familyName)),
     ("driverID", .str x.driverId), ("nationality", .str x.nationality),
     ("constructor", .str x.dname), ("constructorID", .str x.dconstructorId)]

/-- A full qualifying response body. -/
def mkQualBody (xs : List QIn) : JVal :=
  .obj [("MRData", .obj [("RaceTable", .obj [("Races",
    .arr [.obj [("season", .str "2021"), ("round", .str "1"),
      ("QualifyingResults",
        .arr (xs.map (fun x => JVal.obj (mkQRec x))))]])])])]

/-- The column set the qualifying table gets when `z` is the first
record of the response. -/
def qualColsOf (z : QIn) : List String :=
  qualBaseCols ++ (if z.q2.isSome then ["Q2"] else [])
    ++ (if z.q3.isSome then ["Q3"] else [])

/-- One output row for record `y` when `x` is the first record: a `Q2` or
`Q3` cell that `y` lacks comes out as a null cell. -/
def qRowOf (x y : QIn) : List (Option JVal) :=
  [some (.str y.number), some (.str y.position), some (.str y.driverId),
   some (.str (y.givenName ++ " " ++ y.familyName)),
   some (.str y.nationality), some (.str y.dconstructorId),
   some (.str y.dname), some (.str y.q1)]
    ++ (if x.q2.isSome then [y.q2.map JVal.str] else [])
    ++ (if x.q3.isSome then [y.q3.map JVal.str] else [])

/-- Key list of a flattened qualifying record. -/
def qualRawKeys (z : QIn) : List String :=
  ["number", "position", "Driver", "Constructor", "Q1"]
    ++ (if z.q2.isSome then ["Q2"] else [])
    ++ (if z.q3.isSome then ["Q3"] else [])
    ++ ["driver", "driverID", "nationality", "constructor", "constructorID"]

theorem flattenQual_mkQRec (z : QIn) :
    flattenQualRec (mkQRec z) = .ok (qFlatRec z) := by
  obtain ⟨n, p, di, gn, fn, na, dn, dci, q1, q2, q3⟩ := z
  cases q2 <;> cases q3 <;> rfl

theorem qFlat_keys (z : QIn) :
    (qFlatRec z).map Prod.fst = qualRawKeys z := by
  obtain ⟨n, p, di, gn, fn, na, dn, dci, q1, q2, q3⟩ := z
  cases q2 <;> cases q3 <;> rfl

theorem hasKeyR_qFlat_Q2 (z : QIn) :
    hasKeyR (qFlatRec z) "Q2" = z.q2.isSome := by
  obtain ⟨n, p, di, gn, fn, na, dn, dci, q1, q2, q3⟩ := z
  cases q2 <;> cases q3 <;> rfl

theorem hasKeyR_qFlat_Q3 (z : QIn) :
    hasKeyR (qFlatRec z) "Q3" = z.q3.isSome := by
  obtain ⟨n, p, di, gn, fn, na, dn, dci, q1, q2, q3⟩ := z
  cases q2 <;> cases q3 <;> rfl

theorem qualCols_sub_rawKeys (z : QIn) (c : String)
    (hc : c ∈ qualColsOf z) : hasCol (qualRawKeys z) c = true := by
  obtain ⟨n, p, di, gn, fn, na, dn, dci, q1, q2, q3⟩ := z
  cases q2 <;> cases q3 <;> (simp only [qualColsOf, qualBaseCols] at hc) <;>
    fin_cases hc <;> rfl

theorem qRow_eval (x y : QIn) :
    (qualColsOf x).map (fun c => alookup c (qFlatRec y)) = qRowOf x y := by
  obtain ⟨n, p, di, gn, fn, na, dn, dci, q1, q2, q3⟩ := x
  obtain ⟨n2, p2, di2, gn2, fn2, na2, dn2, dci2, q12, q22, q32⟩ := y
  cases q2 <;> cases q3 <;> cases q22 <;> cases q32 <;> rfl

/-- C2 amended: on every schema-conformant nonempty qualifying response,
the returned table's `Q2` (resp. `Q3`) column is present if and only if
the FIRST record carries the key; a later record lacking the key does not
remove the column — its cell is null-filled. -/
theorem C2_amended_q_columns_follow_first_record (x : QIn) (xs : List QIn) :
    get_qualifying_result_from_response 200 (mkQualBody (x :: xs)) =
      .ok { cols := qualColsOf x, cells := (x :: xs).map (qRowOf x) } ∧
    ("Q2" ∈ qualColsOf x ↔ x.q2.isSome = true) ∧
    ("Q3" ∈ qualColsOf x ↔ x.q3.isSome = true) := by
  refine ⟨?_, ?_, ?_⟩
  · have h1 : mapME jobjFields ((x :: xs).map (fun z => JVal.obj (mkQRec z))) =
        .ok ((x :: xs).map mkQRec) := by
      rw [mapME_map]
      exact mapME_ok_of (fun z _ => rfl)
    have h2 : mapME flattenQualRec ((x :: xs).map mkQRec) =
        .ok ((x :: xs).map qFlatRec) := by
      rw [mapME_map]
      exact mapME_ok_of (fun z _ => flattenQual_mkQRec z)
    have key : get_qualifying_result_from_response 200 (mkQualBody (x :: xs)) =
        (do
          let recs ← mapME jobjFields
            ((x :: xs).map (fun z => JVal.obj (mkQRec z)))
          let frecs ← mapME flattenQualRec recs
          let r0 ← match frecs.get? 0 with
            | some r => Except.ok r
            | none => Except.error PyErr.indexError
          (mkDF frecs).select (qualBaseCols
            ++ (if hasKeyR r0 "Q2" then ["Q2"] else [])
            ++ (if hasKeyR r0 "Q3" then ["Q3"] else []))) := rfl
    have e1 : get_qualifying_result_from_response 200 (mkQualBody (x :: xs)) =
        (mkDF ((x :: xs).map qFlatRec)).select (qualBaseCols
          ++ (if hasKeyR (qFlatRec x) "Q2" then ["Q2"] else [])
          ++ (if hasKeyR (qFlatRec x) "Q3" then ["Q3"] else [])) := by
      rw [key, h1, bindE_ok_left, h2, bindE_ok_left]
      rfl
    rw [hasKeyR_qFlat_Q2, hasKeyR_qFlat_Q3] at e1
    have hmem : ∀ c ∈ qualColsOf x,
        hasCol (dfCols ((x :: xs).map qFlatRec)) c = true := by
      intro c hc
      rw [List.map_cons]
      apply hasCol_dfCols_head
      rw [qFlat_keys]
      exact qualCols_sub_rawKeys x c hc
    have hsel := select_mkDF ((x :: xs).map qFlatRec) (qualColsOf x) hmem
    have hcells : ((x :: xs).map qFlatRec).map
        (fun r => (qualColsOf x).map (fun c => alookup c r)) =
        (x :: xs).map (qRowOf x) := by
      rw [List.map_map]
      exact List.map_congr_left (fun y _ => qRow_eval x y)
    rw [hcells] at hsel
    exact e1.trans hsel
  · obtain ⟨n, p, di, gn, fn, na, dn, dci, q1, q2, q3⟩ := x
    cases q2 <;> cases q3 <;> simp [qualColsOf, qualBaseCols]
  · obtain ⟨n, p, di, gn, fn, na, dn, dci, q1, q2, q3⟩ := x
    cases q2 <;> cases q3 <;> simp [qualColsOf, qualBaseCols]

/-- First record of the C2 counterexample: carries `Q2` and `Q3`. -/
def qEx1 : QIn :=
  ⟨"44", "1", "hamilton", "Lewis", "Hamilton", "British", "Mercedes",
   "mercedes", "1:11.0", some "1:10.5", some "1:09.9"⟩

/-- Second record of the C2 counterexample: lacks `Q2` and `Q3`. -/
def qEx2 : QIn :=
  ⟨"33", "2", "max_verstappen", "Max", "Verstappen", "Dutch", "Red Bull",
   "red_bull", "1:12.0", none, none⟩

/-- C2 counterexample: in a response whose second record lacks the `Q3`
key, the returned table STILL contains a `Q3` column (decided by the
first record alone; the second row's `Q2`/`Q3` cells are null-filled),
contradicting the claim that any record lacking the key makes the column
absent. -/
theorem C2_counterexample_q3_kept_despite_missing_key :
    get_qualifying_result_from_response 200 (mkQualBody [qEx1, qEx2]) =
      .ok { cols := ["number", "position", "driverID", "driver",
              "nationality", "constructorID", "constructor", "Q1", "Q2", "Q3"],
            cells := [[some (.str "44"), some (.str "1"),
                some (.str "hamilton"), some (.str "Lewis Hamilton"),
                some (.str "British"), some (.str "mercedes"),
                some (.str "Mercedes"), some (.str "1:11.0"),
                some (.str "1:10.5"), some (.str "1:09.9")],
              [some (.str "33"), some (.str "2"),
                some (.str "max_verstappen"), some (.str "Max Verstappen"),
                some (.str "Dutch"), some (.str "red_bull"),
                some (.str "Red Bull"), some (.str "1:12.0"),
                none, none]] } ∧
    hasKeyR (mkQRec qEx2) "Q3" = false ∧
    "Q3" ∈ ["number", "position", "driverID", "driver", "nationality",
      "constructorID", "constructor", "Q1", "Q2", "Q3"] :=
  ⟨rfl, rfl, by decide⟩

/-! ## C5: fixed race-result columns, behaviour on missing fields -/

theorem select_ok_inv {t : Table} {cs : List String} {t' : Table}
    (h : t.select cs = .ok t') : t'.cols = cs := by
  unfold Table.select at h
  by_cases hc : cs.all (fun c => hasCol t.cols c)
  · rw [if_pos hc] at h
    simp only [Except.ok.injEq] at h
    rw [← h]
  · rw [if_neg hc] at h
    exact absurd h (by simp)

/-- A complete race-result record. -/
def raceRec1 : List (String × JVal) :=
  [("number", .str "44"), ("position", .str "1"), ("positionText", .str "1"),
   ("points", .str "25"), ("grid", .str "1"), ("laps", .str "58"),
   ("status", .str "Finished"),
   ("Time", .obj [("millis", .str "5523897"), ("time", .str "1:32:03.897")]),
   ("Driver", .obj [("driverId", .str "hamilton"),
     ("givenName", .str "Lewis"), ("familyName", .str "Hamilton"),
     ("nationality", .str "British")]),
   ("Constructor", .obj [("constructorId", .str "mercedes"),
     ("name", .str "Mercedes"), ("nationality", .str "German")])]

/-- A race-result record lacking the declared `number` column. -/
def raceRec2 : List (String × JVal) :=
  [("position", .str "2"), ("positionText", .str "2"),
   ("points", .str "18"), ("grid", .str "2"), ("laps", .str "58"),
   ("status", .str "Finished"),
   ("Time", .obj [("millis", .str "5524622"), ("time", .str "+0.725")]),
   ("Driver", .obj [("driverId", .str "bottas"),
     ("givenName", .str "Valtteri"), ("familyName", .str "Bottas"),
     ("nationality", .str "Finnish")]),
   ("Constructor", .obj [("constructorId", .str "mercedes"),
     ("name", .str "Mercedes"), ("nationality", .str "German")])]

/-- A race body whose second record lacks `number`. -/
def raceBodyEx : JVal :=
  .obj [("MRData", .obj [("RaceTable", .obj [("Races",
    .arr [.obj [("raceName", .str "Example GP"),
      ("Results", .arr [.obj raceRec1, .obj raceRec2])]])])])]

/-- A race body with the single complete record. -/
def raceBodyW : JVal :=
  .obj [("MRData", .obj [("RaceTable", .obj [("Races",
    .arr [.obj [("raceName", .str "Example GP"),
      ("Results", .arr [.obj raceRec1])]])])])]

/-- The output row for `raceRec1`. -/
def raceRow1 : List (Option JVal) :=
  [some (.str "44"), some (.str "1"), some (.str "1"), some (.str "1"),
   some (.str "25"), some (.str "hamilton"), some (.str "Lewis Hamilton"),
   some (.str "British"), some (.str "mercedes"), some (.str "Mercedes"),
   some (.str "58"), some (.str "Finished"),
   some (.obj [("millis", .str "5523897"), ("time", .str "1:32:03.897")])]

/-- The output row for `raceRec2`: its `number` cell is null. -/
def raceRow2 : List (Option JVal) :=
  [none, some (.str "2"), some (.str "2"), some (.str "2"),
   some (.str "18"), some (.str "bottas"), some (.str "Valtteri Bottas"),
   some (.str "Finnish"), some (.str "mercedes"), some (.str "Mercedes"),
   some (.str "58"), some (.str "Finished"),
   some (.obj [("millis", .str "5524622"), ("time", .str "+0.725")])]

/-- C5 counterexample: a declared column (`number`) absent from one
flattened row does NOT make the build fail — the call succeeds and the
missing cell is null-filled (the first cell of the second row is `none`),
contradicting the claimed MissingColumn error. -/
theorem C5_counterexample_missing_cell_null_filled :
    get_race_result_from_response 200 raceBodyEx =
      .ok { cols := raceCols, cells := [raceRow1, raceRow2] } ∧
    hasKeyR raceRec2 "number" = false ∧
    raceRow2.get? 0 = some none :=
  ⟨rfl, rfl, rfl⟩

/-- C5 amended: whenever `get_race_result` returns a table that table has
exactly the thirteen declared columns in the declared order; and if
`number` is absent from EVERY flattened row, the column selection fails
with a `KeyError`.  (Absence from only some rows is null-filled, see the
counterexample; the standings tables are built without any column
selection, their column set being the flattened records' keys.) -/
theorem C5_amended_thirteen_columns_on_success
    (status : Nat) (body : JVal) (t u : Table) :
    (get_race_result_from_response status body = .ok t → t.cols = raceCols) ∧
    (hasCol u.cols "number" = false →
      u.select raceCols = .error (.keyError "column not found")) := by
  constructor
  · intro h
    unfold get_race_result_from_response at h
    obtain ⟨u1, _, h⟩ := bindE_ok_inv h
    obtain ⟨mr, _, h⟩ := bindE_ok_inv h
    obtain ⟨rt, _, h⟩ := bindE_ok_inv h
    obtain ⟨races, _, h⟩ := bindE_ok_inv h
    obtain ⟨race0, _, h⟩ := bindE_ok_inv h
    obtain ⟨res, _, h⟩ := bindE_ok_inv h
    obtain ⟨es, _, h⟩ := bindE_ok_inv h
    obtain ⟨recs, _, h⟩ := bindE_ok_inv h
    obtain ⟨frecs, _, h⟩ := bindE_ok_inv h
    exact select_ok_inv h
  · intro hu
    unfold Table.select
    rw [if_neg]
    intro hall
    have := List.all_eq_true.mp hall "number" (by decide)
    rw [hu] at this
    exact Bool.false_ne_true this

/-- C5 witness: the single-record body succeeds with the thirteen
columns, and a table without a `number` column is rejected. -/
theorem C5_witness_complete_record :
    (Table.mk raceCols [raceRow1]).cols = raceCols ∧
    Table.select (Table.mk ["position"] []) raceCols =
      .error (.keyError "column not found") :=
  ⟨(C5_amended_thirteen_columns_on_success 200 raceBodyW
      (Table.mk raceCols [raceRow1]) (Table.mk ["position"] [])).1 rfl,
   (C5_amended_thirteen_columns_on_success 200 raceBodyW
      (Table.mk raceCols [raceRow1]) (Table.mk ["position"] [])).2 rfl⟩

/-! ## C6: search helper matching semantics -/

theorem rmatch_parsePat_no_dot (p : List Char) (hp : '.' ∉ p) :
    ∀ cs : List Char, rmatch (parsePat p) cs = isPrefixL p cs := by
  induction p with
  | nil => intro cs; cases cs <;> rfl
  | cons a as ih =>
    have ha : ¬ a = '.' := by
      intro h
      exact hp (by rw [h]; exact List.mem_cons_self _ _)
    have has : '.' ∉ as := fun h => hp (List.mem_cons_of_mem _ h)
    intro cs
    cases cs with
    | nil => simp [parsePat, rmatch, ha, isPrefixL]
    | cons b bs =>
      have h2 := ih has bs
      simp only [parsePat] at h2
      simp [parsePat, rmatch, tokMatch, isPrefixL, ha, h2]

theorem rsearch_parsePat_no_dot (p : List Char) (hp : '.' ∉ p) :
    ∀ cs : List Char, rsearch (parsePat p) cs = literalContains p cs := by
  intro cs
  induction cs with
  | nil => exact rmatch_parsePat_no_dot p hp []
  | cons c cs ih =>
    show (rmatch (parsePat p) (c :: cs) || rsearch (parsePat p) cs) = _
    rw [rmatch_parsePat_no_dot p hp, ih]
    rfl

theorem zipFilterMap {α : Type} (l : List α)
    (row : α → List (Option JVal)) (g : α → String) (pred : String → Bool) :
    (((l.map row).zip (l.map g)).filter (fun p => pred p.2)).map Prod.fst =
      (l.filter (fun z => pred (g z))).map row := by
  induction l with
  | nil => rfl
  | cons z zs ih =>
    by_cases h : pred (g z) <;> simp [List.filter_cons, h, ih]

theorem filterRowsByCol_map {α : Type} (cols : List String) (c : String)
    (l : List α) (row : α → List (Option JVal)) (g : α → String)
    (hrow : ∀ z, rowLookup cols (row z) c = some (.str (g z)))
    (hc : hasCol cols c = true) (pred : String → Bool) :
    filterRowsByCol ⟨cols, l.map row⟩ c pred =
      .ok ⟨cols, (l.filter (fun z => pred (g z))).map row⟩ := by
  have hget : Table.getCol ⟨cols, l.map row⟩ c =
      .ok (l.map (fun z => some (JVal.str (g z)))) := by
    unfold Table.getCol
    simp only [hc, if_pos, List.map_map]
    exact congrArg Except.ok (List.map_congr_left (fun z _ => hrow z))
  have hstr : mapME cellStr (l.map (fun z => some (JVal.str (g z)))) =
      .ok (l.map g) := by
    rw [mapME_map]
    exact mapME_ok_of (fun z _ => rfl)
  unfold filterRowsByCol
  rw [hget, bindE_ok_left, hstr, bindE_ok_left]
  exact congrArg Except.ok (congrArg (Table.mk cols) (zipFilterMap l row g pred))

/-- One upstream driver record (fixed shape). -/
structure DrvIn where
  driverId : String
  url : String
  givenName : String
  familyName : String
  dateOfBirth : String
  nationality : String

/-- The raw JSON record of a driver. -/
def mkDrvRec (x : DrvIn) : List (String × JVal) :=
  [("driverId", .str x.driverId), ("url", .str x.url),
   ("givenName", .str x.givenName), ("familyName", .str x.familyName),
   ("dateOfBirth", .str x.dateOfBirth), ("nationality", .str x.nationality)]

/-- A full drivers response body. -/
def mkDriversBody (xs : List DrvIn) : JVal :=
  .obj [("MRData", .obj [("DriverTable", .obj [("Drivers",
    .arr (xs.map (fun x => JVal.obj (mkDrvRec x))))])])]

/-- Columns of the drivers table. -/
def drvCols : List String :=
  ["driverId", "url", "givenName", "familyName", "dateOfBirth", "nationality"]

/-- One row of the drivers table. -/
def drvRow (x : DrvIn) : List (Option JVal) :=
  [some (.str x.driverId), some (.str x.url), some (.str x.givenName),
   some (.str x.familyName), some (.str x.dateOfBirth),
   some (.str x.nationality)]

/-- One upstream constructor record (fixed shape). -/
structure ConIn where
  constructorId : String
  url : String
  name : String
  nationality : String

/-- The raw JSON record of a constructor. -/
def mkConRec (x : ConIn) : List (String × JVal) :=
  [("constructorId", .str x.constructorId), ("url", .str x.url),
   ("name", .str x.name), ("nationality", .str x.nationality)]

/-- A full constructors response body. -/
def mkConstructorsBody (xs : List ConIn) : JVal :=
  .obj [("MRData", .obj [("ConstructorTable", .obj [("Constructors",
    .arr (xs.map (fun x => JVal.obj (mkConRec x))))])])]

/-- Columns of the constructors table. -/
def conCols : List String :=
  ["constructorId", "url", "name", "nationality"]

/-- One row of the constructors table. -/
def conRow (x : ConIn) : List (Option JVal) :=
  [some (.str x.constructorId), some (.str x.url), some (.str x.name),
   some (.str x.nationality)]

/-- C6 amended: the search helpers filter by REGEX search (`str.contains`
defaults to `regex=True`), not literal substring containment: the result
keeps exactly the rows whose identity field matches the lowercased query
as a regular expression; this coincides with literal substring
containment exactly when the query has no metacharacters (third
conjunct, for the modelled fragment where `.` is the metacharacter). -/
theorem C6_find_helpers_use_regex_matching
    (firstname lastname cname : String) (x : DrvIn) (xs : List DrvIn)
    (y : ConIn) (ys : List ConIn) :
    find_driverId firstname lastname
        (fun _ => (200, mkDriversBody (x :: xs))) =
      .ok { cols := drvCols,
            cells := ((x :: xs).filter (fun z =>
              rsearch (parsePat (pyLower firstname)) z.driverId.toList
                || rsearch (parsePat (pyLower lastname)) z.driverId.toList)).map
              drvRow } ∧
    find_constructorid cname (fun _ => (200, mkConstructorsBody (y :: ys))) =
      .ok { cols := conCols,
            cells := ((y :: ys).filter (fun z =>
              rsearch (parsePat (pyLower cname)) z.constructorId.toList)).map
              conRow } ∧
    (∀ p cs : List Char, '.' ∉ p →
      rsearch (parsePat p) cs = literalContains p cs) := by
  refine ⟨?_, ?_, fun p cs hp => rsearch_parsePat_no_dot p hp cs⟩
  · have h1 : mapME jobjFields ((x :: xs).map (fun z => JVal.obj (mkDrvRec z))) =
        .ok ((x :: xs).map mkDrvRec) := by
      rw [mapME_map]
      exact mapME_ok_of (fun z _ => rfl)
    have hcols : dfCols ((x :: xs).map mkDrvRec) = drvCols :=
      dfCols_uniform mkDrvRec drvCols (fun z => rfl) x xs
    have hdf : mkDF ((x :: xs).map mkDrvRec) =
        ⟨drvCols, (x :: xs).map
          (fun z => drvCols.map (fun c => alookup c (mkDrvRec z)))⟩ := by
      unfold mkDF
      rw [hcols, List.map_map]
      rfl
    have key : find_driverId firstname lastname
        (fun _ => (200, mkDriversBody (x :: xs))) =
        ((mapME jobjFields ((x :: xs).map (fun z => JVal.obj (mkDrvRec z)))
            >>= fun recs => Except.ok (mkDF recs))
          >>= fun df => filterRowsByCol df "driverId" (fun s =>
            rsearch (parsePat (pyLower firstname)) s.toList
              || rsearch (parsePat (pyLower lastname)) s.toList)) := rfl
    rw [key, h1, bindE_ok_left, bindE_ok_left, hdf]
    rw [filterRowsByCol_map drvCols "driverId" (x :: xs)
      (fun z => drvCols.map (fun c => alookup c (mkDrvRec z)))
      (fun z => z.driverId) (fun z => rfl) rfl]
    exact congrArg Except.ok (congrArg (Table.mk drvCols)
      (List.map_congr_left (fun z _ => rfl)))
  · have h1 : mapME jobjFields ((y :: ys).map (fun z => JVal.obj (mkConRec z))) =
        .ok ((y :: ys).map mkConRec) := by
      rw [mapME_map]
      exact mapME_ok_of (fun z _ => rfl)
    have hcols : dfCols ((y :: ys).map mkConRec) = conCols :=
      dfCols_uniform mkConRec conCols (fun z => rfl) y ys
    have hdf : mkDF ((y :: ys).map mkConRec) =
        ⟨conCols, (y :: ys).map
          (fun z => conCols.map (fun c => alookup c (mkConRec z)))⟩ := by
      unfold mkDF
      rw [hcols, List.map_map]
      rfl
    have key : find_constructorid cname
        (fun _ => (200, mkConstructorsBody (y :: ys))) =
        ((mapME jobjFields ((y :: ys).map (fun z => JVal.obj (mkConRec z)))
            >>= fun recs => Except.ok (mkDF recs))
          >>= fun df => filterRowsByCol df "constructorId" (fun s =>
            rsearch (parsePat (pyLower cname)) s.toList)) := rfl
    rw [key, h1, bindE_ok_left, bindE_ok_left, hdf]
    rw [filterRowsByCol_map conCols "constructorId" (y :: ys)
      (fun z => conCols.map (fun c => alookup c (mkConRec z)))
      (fun z => z.constructorId) (fun z => rfl) rfl]
    exact congrArg Except.ok (congrArg (Table.mk conCols)
      (List.map_congr_left (fun z _ => rfl)))

/-- A driver record whose id `xyz` contains neither `x.z` nor `qqq` as a
literal substring. -/
def drvDot : DrvIn := ⟨"xyz", "u", "G", "F", "d", "n"⟩

/-- C6 counterexample: `find_driverId("X.Z", "QQQ")` RETAINS the row with
id `xyz` (the lowercased query `x.z` matches as a regex, `.` matching
`y`), although neither lowercased query is a literal substring of `xyz` —
so the claimed literal-substring semantics does not hold. -/
theorem C6_counterexample_dot_matches_as_regex :
    find_driverId "X.Z" "QQQ" (fun _ => (200, mkDriversBody [drvDot])) =
      .ok { cols := drvCols,
            cells := [[some (.str "xyz"), some (.str "u"), some (.str "G"),
              some (.str "F"), some (.str "d"), some (.str "n")]] } ∧
    literalContains (pyLower "X.Z") "xyz".toList = false ∧
    literalContains (pyLower "QQQ") "xyz".toList = false :=
  ⟨rfl, rfl, rfl⟩

/-- A driver record for the C6 witness. -/
def drvHam : DrvIn := ⟨"hamilton", "u", "Lewis", "Hamilton", "1985", "British"⟩

/-- A constructor record for the C6 witness. -/
def conMer : ConIn := ⟨"mercedes", "u", "Mercedes", "German"⟩

/-- C6 witness: the amended statement at concrete queries, and the
regex/literal coincidence at a dot-free pattern. -/
theorem C6_witness_plain_query :
    find_driverId "Ham" "Q" (fun _ => (200, mkDriversBody [drvHam])) =
      .ok { cols := drvCols,
            cells := ([drvHam].filter (fun z =>
              rsearch (parsePat (pyLower "Ham")) z.driverId.toList
                || rsearch (parsePat (pyLower "Q")) z.driverId.toList)).map
              drvRow } ∧
    rsearch (parsePat ['h', 'a', 'm']) "hamilton".toList =
      literalContains ['h', 'a', 'm'] "hamilton".toList := by
  have h := C6_find_helpers_use_regex_matching "Ham" "Q" "mer" drvHam []
    conMer []
  exact ⟨h.1, h.2.2 ['h', 'a', 'm'] "hamilton".toList (by decide)⟩

/-! ## C10: standings column naming

Schema-conformant response families for the two standings endpoints. -/

/-- One upstream constructor-standings entry. -/
structure CSIn where
  position : String
  positionText : String
  points : String
  wins : String
  constructorId : String
  name : String
  nationality : String

/-- The raw JSON record of a constructor-standings entry. -/
def mkCSRec (x : CSIn) : List (String × JVal) :=
  [("position", .str x.position), ("positionText", .str x.positionText),
   ("points", .str x.points), ("wins", .str x.wins),
   ("Constructor", .obj [("constructorId", .str x.constructorId),
     ("url", .str ""), ("name", .str x.name),
     ("nationality", .str x.nationality)])]

/-- The same record after the `constructor_standings` flattening loop. -/
def csFlatRec (x : CSIn) : List (String × JVal) :=
  [("position", .str x.position), ("positionText", .str x.positionText),
   ("points", .str x.points), ("wins", .str x.wins),
   ("constructorID", .str x.constructorId), ("name", .str x.name),
   ("nationality", .str x.nationality)]

/-- A full constructor-standings response body. -/
def mkCSBody (xs : List CSIn) : JVal :=
  .obj [("MRData", .obj [("StandingsTable", .obj [("StandingsLists",
    .arr [.obj [("season", .str "2020"), ("round", .str "17"),
      ("ConstructorStandings",
        .arr (xs.map (fun x => JVal.obj (mkCSRec x))))]])])])]

/-- Column set of the constructor-standings table. -/
def csCols : List String :=
  ["position", "positionText", "points", "wins", "constructorID", "name",
   "nationality"]

/-- One output row of the constructor-standings table. -/
def csRow (x : CSIn) : List (Option JVal) :=
  [some (.str x.position), some (.str x.positionText), some (.str x.points),
   some (.str x.wins), some (.str x.constructorId), some (.str x.name),
   some (.str x.nationality)]

/-- One upstream driver-standings entry. -/
structure DSIn where
  position : String
  positionText : String
  points : String
  wins : String
  driverId : String
  givenName : String
  familyName : String
  nationality : String
  constructorId : String
  constructorName : String

/-- The raw JSON record of a driver-standings entry. -/
def mkDSRec (x : DSIn) : List (String × JVal) :=
  [("position", .str x.position), ("positionText", .str x.positionText),
   ("points", .str x.points), ("wins", .str x.wins),
   ("Driver", .obj [("driverId", .str x.driverId), ("url", .str ""),
     ("givenName", .str x.givenName), ("familyName", .str x.familyName),
     ("nationality", .str x.nationality)]),
   ("Constructors", .arr [.obj [("constructorId", .str x.constructorId),
     ("url", .str ""), ("name", .str x.constructorName)]])]

/-- The same record after the `driver_standings` flattening loop. -/
def dsFlatRec (x : DSIn) : List (String × JVal) :=
  [("position", .str x.position), ("positionText", .str x.positionText),
   ("points", .str x.points), ("wins", .str x.wins),
   ("driverID", .str x.driverId),
   ("driver", .str (x.givenName ++ " " ++ x.familyName)),
   ("nationality", .str x.nationality),
   ("constructorID", .str x.constructorId),
   ("constructor", .str x.constructorName)]

/-- A full driver-standings response body. -/
def mkDSBody (xs : List DSIn) : JVal :=
  .obj [("MRData", .obj [("StandingsTable", .obj [("StandingsLists",
    .arr [.obj [("season", .str "2020"), ("round", .str "17"),
      ("DriverStandings",
        .arr (xs.map (fun x => JVal.obj (mkDSRec x))))]])])])]

/-- Column set of the driver-standings table. -/
def dsCols : List String :=
  ["position", "positionText", "points", "wins", "driverID", "driver",
   "nationality", "constructorID", "constructor"]

/-- One output row of the driver-standings table. -/
def dsRow (x : DSIn) : List (Option JVal) :=
  [some (.str x.position), some (.str x.positionText), some (.str x.points),
   some (.str x.wins), some (.str x.driverId),
   some (.str (x.givenName ++ " " ++ x.familyName)),
   some (.str x.nationality), some (.str x.constructorId),
   some (.str x.constructorName)]

/-- C10: on every schema-conformant nonempty response,
`constructor_standings` returns the constructor display name in a column
named `name` (alongside `constructorID` and `nationality`) and its table
has no `constructor` column, whereas `driver_standings` returns the
constructor display name under a column named `constructor`. -/
theorem C10_constructor_standings_uses_name_column
    (x : CSIn) (xs : List CSIn) (y : DSIn) (ys : List DSIn) :
    constructor_standings_from_response 200 (mkCSBody (x :: xs)) =
      .ok { cols := csCols, cells := (x :: xs).map csRow } ∧
    "name" ∈ csCols ∧ "constructor" ∉ csCols ∧
    driver_standings_from_response 200 (mkDSBody (y :: ys)) =
      .ok { cols := dsCols, cells := (y :: ys).map dsRow } ∧
    "constructor" ∈ dsCols := by
  refine ⟨?_, by decide, by decide, ?_, by decide⟩
  · have h1 : mapME jobjFields ((x :: xs).map (fun z => JVal.obj (mkCSRec z))) =
        .ok ((x :: xs).map mkCSRec) := by
      rw [mapME_map]
      exact mapME_ok_of (fun z _ => rfl)
    have h2 : mapME flattenConstructorStandingRec ((x :: xs).map mkCSRec) =
        .ok ((x :: xs).map csFlatRec) := by
      rw [mapME_map]
      exact mapME_ok_of (fun z _ => rfl)
    have hcols : dfCols ((x :: xs).map csFlatRec) = csCols :=
      dfCols_uniform csFlatRec csCols (fun z => rfl) x xs
    have key : constructor_standings_from_response 200 (mkCSBody (x :: xs)) =
        (do
          let recs ← mapME jobjFields
            ((x :: xs).map (fun z => JVal.obj (mkCSRec z)))
          let frecs ← mapME flattenConstructorStandingRec recs
          Except.ok (mkDF frecs)) := rfl
    rw [key, h1, bindE_ok_left, h2, bindE_ok_left]
    refine congrArg Except.ok ?_
    unfold mkDF
    rw [hcols]
    refine congrArg (Table.mk csCols) ?_
    rw [List.map_map]
    exact List.map_congr_left (fun z _ => rfl)
  · have h1 : mapME jobjFields ((y :: ys).map (fun z => JVal.obj (mkDSRec z))) =
        .ok ((y :: ys).map mkDSRec) := by
      rw [mapME_map]
      exact mapME_ok_of (fun z _ => rfl)
    have h2 : mapME flattenDriverStandingRec ((y :: ys).map mkDSRec) =
        .ok ((y :: ys).map dsFlatRec) := by
      rw [mapME_map]
      exact mapME_ok_of (fun z _ => rfl)
    have hcols : dfCols ((y :: ys).map dsFlatRec) = dsCols :=
      dfCols_uniform dsFlatRec dsCols (fun z => rfl) y ys
    have key : driver_standings_from_response 200 (mkDSBody (y :: ys)) =
        (do
          let recs ← mapME jobjFields
            ((y :: ys).map (fun z => JVal.obj (mkDSRec z)))
          let frecs ← mapME flattenDriverStandingRec recs
          Except.ok (mkDF frecs)) := rfl
    rw [key, h1, bindE_ok_left, h2, bindE_ok_left]
    refine congrArg Except.ok ?_
    unfold mkDF
    rw [hcols]
    refine congrArg (Table.mk dsCols) ?_
    rw [List.map_map]
    exact List.map_congr_left (fun z _ => rfl)
